import Mathlib

/-!
Shallow embedding of the conjunction-assessment core of the Satellite_12
repository: the collision-detector module (`detectRealTimeCollisions`,
`predictCollisions24Hours`, `getRiskLevel`, `SCALE_FACTOR`, `CollisionRisk`)
together with the coverage-mode and stale-data consumers in
`src/components/monitoring/CollisionPanel.tsx`.

Modelling conventions:
- JavaScript numbers are modelled as real numbers (`ℝ`); `Math.sqrt` is
  `Real.sqrt`; `Math.round x` is `⌊x + 1/2⌋` (JS rounds half toward +∞).
- Epoch timestamps in milliseconds are integers (`ℤ`); `new Date()` at the
  start of a scan becomes an explicit `now : ℤ` parameter.
- The external propagator adapter `propagateSatellite` (from
  `satellite-utils`, an external collaborator per the spec) is a function
  parameter `propagate : SatelliteData → ℤ → Option Vec3`; `none` models a
  failed propagation (`!prop.position`).
- `Array.prototype.sort` with comparator `(a, b) => a.distance - b.distance`
  is a stable ascending sort by the stored `distance` field; it is modelled
  by `List.insertionSort` on `a.distance ≤ b.distance`, which is stable and
  sorts ascending.
- The nested `for` loops over index pairs `i < j` (with the shared
  `pairCount < maxPairs` bound in the predictive search) enumerate exactly
  the first pairs of `allPairs` in order, so they are modelled by
  `(allPairs sats).take 10000` followed by `filterMap` over the per-pair body.
-/

namespace Satellite12

/-- A 3-component position vector in scene (rendering) units, as produced by
the propagator and stored in `SatelliteData.position`. -/
structure Vec3 where
  x : ℝ
  y : ℝ
  z : ℝ

/-- The slice of `SatelliteData` the collision detector reads: identity,
the cached position (possibly absent), and whether the opaque `satrec`
propagator handle is initialized. -/
structure SatelliteData where
  id : String
  name : String
  position : Option Vec3
  satrec : Bool

/-- Discrete risk levels, as in the union type of `getRiskLevel`. -/
inductive RiskLevel where
  | low
  | medium
  | high
  | critical
deriving DecidableEq

/-- The `CollisionRisk` record produced by both scanners. The optional
`tleAge1`/`tleAge2` fields are the element-age fields of the enhanced
detector interface read by `CollisionPanel.tsx` (`collision.tleAge1`,
`collision.tleAge2`); the basic detector under `src/` never sets them, so
both scanners below produce `none`. -/
structure CollisionRisk where
  id : String
  sat1 : SatelliteData
  sat2 : SatelliteData
  distance : ℝ
  timeOfClosestApproach : ℤ
  riskLevel : RiskLevel
  position1 : Vec3
  position2 : Vec3
  tleAge1 : Option ℝ
  tleAge2 : Option ℝ

/-- `const SCALE_FACTOR = 1 / 1000` — scene units per kilometer. -/
noncomputable def SCALE_FACTOR : ℝ := 1 / 1000

/-- The separation in kilometers computed by both scanners:
`Math.sqrt(dx*dx + dy*dy + dz*dz)` with `dx = (p1.x - p2.x) / SCALE_FACTOR`
and likewise for `y`, `z`. -/
noncomputable def sepKm (p1 p2 : Vec3) : ℝ :=
  Real.sqrt (((p1.x - p2.x) / SCALE_FACTOR) ^ 2 +
    ((p1.y - p2.y) / SCALE_FACTOR) ^ 2 +
    ((p1.z - p2.z) / SCALE_FACTOR) ^ 2)

/-- JavaScript `Math.round`: round half toward positive infinity. -/
noncomputable def jsRound (x : ℝ) : ℤ := ⌊x + 1 / 2⌋

/-- `Math.round(distance * 100) / 100` — the two-decimal rounding applied to
the stored `distance` field of every emitted event. -/
noncomputable def roundTo2 (x : ℝ) : ℝ := (jsRound (x * 100) : ℝ) / 100

/-- `getRiskLevel` from the collision detector, verbatim banding. -/
noncomputable def getRiskLevel (distanceKm : ℝ) : RiskLevel :=
  if distanceKm ≤ 1 then .critical
  else if distanceKm ≤ 10 then .high
  else if distanceKm ≤ 25 then .medium
  else .low

/-- The ordered enumeration of index pairs `i < j` produced by the nested
`for` loops of both scanners, as the corresponding element pairs. -/
def allPairs {α : Type} : List α → List (α × α)
  | [] => []
  | x :: xs => (xs.map fun y => (x, y)) ++ allPairs xs

/-- Comparator order of `sort((a, b) => a.distance - b.distance)`. -/
def distLE (a b : CollisionRisk) : Prop := a.distance ≤ b.distance

instance : IsTotal CollisionRisk distLE := ⟨fun a b => le_total a.distance b.distance⟩

instance : IsTrans CollisionRisk distLE := ⟨fun _ _ _ h1 h2 => le_trans h1 h2⟩

noncomputable instance : DecidableRel distLE :=
  fun a b => inferInstanceAs (Decidable (a.distance ≤ b.distance))

/-- The stable ascending sort by stored distance applied by both scanners
before returning. -/
noncomputable def sortByDistance (l : List CollisionRisk) : List CollisionRisk :=
  l.insertionSort distLE

/-- Body of the real-time scanner's inner loop for one pair: skip the pair
unless both cached positions exist, compute the separation, and emit an event
when it is strictly below the threshold. The stored distance is rounded to
two decimals and the risk level is computed from the unrounded distance. -/
noncomputable def detectPair (now : ℤ) (thresholdKm : ℝ)
    (p : SatelliteData × SatelliteData) : Option CollisionRisk :=
  match p.1.position, p.2.position with
  | some pos1, some pos2 =>
    if sepKm pos1 pos2 < thresholdKm then
      some ⟨p.1.id ++ "-" ++ p.2.id, p.1, p.2, roundTo2 (sepKm pos1 pos2), now,
        getRiskLevel (sepKm pos1 pos2), pos1, pos2, none, none⟩
    else none
  | _, _ => none

/-- `detectRealTimeCollisions(satellites, thresholdKm = 50)`: exhaustive scan
of all index pairs `i < j`, then `collisions.sort((a, b) => a.distance - b.distance)`. -/
noncomputable def detectRealTimeCollisions (satellites : List SatelliteData)
    (thresholdKm : ℝ) (now : ℤ) : List CollisionRisk :=
  sortByDistance ((allPairs satellites).filterMap (detectPair now thresholdKm))

/-- The per-pair mutable state of the predictive search's time loop:
`minDistance` (where `none` models the initial `Infinity`), `closestTime`,
`closestPos1`, `closestPos2`. -/
structure ScanState where
  minDistance : Option ℝ
  closestTime : ℤ
  closestPos1 : Option Vec3
  closestPos2 : Option Vec3

/-- One iteration of the predictive search's time loop at coarse step `k`
(`stepMs = 24*60*60*1000 / 96 = 900000`): propagate both objects at the
sample time, skip the sample if either propagation fails, otherwise update
the running minimum on strict improvement. -/
noncomputable def predictStep (propagate : SatelliteData → ℤ → Option Vec3)
    (now : ℤ) (s1 s2 : SatelliteData) (st : ScanState) (k : ℕ) : ScanState :=
  let t : ℤ := now + 900000 * (k : ℤ)
  match propagate s1 t, propagate s2 t with
  | some p1, some p2 =>
    match st.minDistance with
    | none => ⟨some (sepKm p1 p2), t, some p1, some p2⟩
    | some m =>
      if sepKm p1 p2 < m then ⟨some (sepKm p1 p2), t, some p1, some p2⟩ else st
  | _, _ => st

/-- The emission test at the end of the predictive search's per-pair loop:
`if (minDistance < thresholdKm && closestPos1 && closestPos2)` push an event;
the stored distance is the rounded minimum and the risk level is computed
from the unrounded minimum. -/
noncomputable def predictEmit (thresholdKm : ℝ) (p : SatelliteData × SatelliteData)
    (st : ScanState) : Option CollisionRisk :=
  match st.minDistance, st.closestPos1, st.closestPos2 with
  | some m, some cp1, some cp2 =>
    if m < thresholdKm then
      some ⟨p.1.id ++ "-" ++ p.2.id ++ "-pred", p.1, p.2, roundTo2 m,
        st.closestTime, getRiskLevel m, cp1, cp2, none, none⟩
    else none
  | _, _, _ => none

/-- The per-pair body of the predictive search: require both `satrec` handles
(`if (!sat1.satrec || !sat2.satrec) continue`), run the 96-sample coarse loop
from the initial state (`Infinity`, `now`, cached positions), then apply the
emission test. -/
noncomputable def predictPair (propagate : SatelliteData → ℤ → Option Vec3)
    (thresholdKm : ℝ) (now : ℤ) (p : SatelliteData × SatelliteData) :
    Option CollisionRisk :=
  if p.1.satrec && p.2.satrec then
    predictEmit thresholdKm p ((List.range 96).foldl (predictStep propagate now p.1 p.2)
      ⟨none, now, p.1.position, p.2.position⟩)
  else none

/-- The list of events found by the predictive search before sorting and
capping: the first `maxPairs = 10000` index pairs in enumeration order, each
evaluated by `predictPair`. -/
noncomputable def predictCandidates (propagate : SatelliteData → ℤ → Option Vec3)
    (satellites : List SatelliteData) (thresholdKm : ℝ) (now : ℤ) :
    List CollisionRisk :=
  ((allPairs satellites).take 10000).filterMap (predictPair propagate thresholdKm now)

/-- `predictCollisions24Hours(satellites, thresholdKm = 50)`:
`collisions.sort((a, b) => a.distance - b.distance).slice(0, 50)`. -/
noncomputable def predictCollisions24Hours (propagate : SatelliteData → ℤ → Option Vec3)
    (satellites : List SatelliteData) (thresholdKm : ℝ) (now : ℤ) :
    List CollisionRisk :=
  (sortByDistance (predictCandidates propagate satellites thresholdKm now)).take 50

/-- The separation sampled by the coarse loop at step `k` for a pair, when
both propagations succeed. -/
noncomputable def sampleSep (propagate : SatelliteData → ℤ → Option Vec3)
    (s1 s2 : SatelliteData) (now : ℤ) (k : ℕ) : Option ℝ :=
  let t : ℤ := now + 900000 * (k : ℤ)
  match propagate s1 t, propagate s2 t with
  | some p1, some p2 => some (sepKm p1 p2)
  | _, _ => none

/-- The list of valid coarse-sample separations of a pair across the
24-hour horizon (96 samples at 15-minute intervals). -/
noncomputable def sampleDists (propagate : SatelliteData → ℤ → Option Vec3)
    (s1 s2 : SatelliteData) (now : ℤ) : List ℝ :=
  (List.range 96).filterMap (sampleSep propagate s1 s2 now)

/-! ### Basic facts about the pair enumeration -/

theorem mem_allPairs {α : Type} {p : α × α} :
    ∀ {l : List α}, p ∈ allPairs l → p.1 ∈ l ∧ p.2 ∈ l
  | [], h => absurd h (List.not_mem_nil p)
  | x :: xs, h => by
    rcases List.mem_append.mp h with h1 | h2
    · rcases List.mem_map.mp h1 with ⟨y, hy, rfl⟩
      exact ⟨List.mem_cons_self x xs, List.mem_cons_of_mem x hy⟩
    · have h3 := mem_allPairs h2
      exact ⟨List.mem_cons_of_mem x h3.1, List.mem_cons_of_mem x h3.2⟩

theorem length_allPairs {α : Type} : ∀ l : List α, (allPairs l).length = l.length.choose 2
  | [] => rfl
  | x :: xs => by
    simp only [allPairs, List.length_append, List.length_map, length_allPairs xs,
      List.length_cons, Nat.choose_succ_succ, Nat.choose_one_right]

/-- Two ordered pairs of objects denote the same unordered pair of ids. -/
def samePairIds (p q : SatelliteData × SatelliteData) : Prop :=
  (p.1.id = q.1.id ∧ p.2.id = q.2.id) ∨ (p.1.id = q.2.id ∧ p.2.id = q.1.id)

theorem allPairs_pairwise_ids :
    ∀ l : List SatelliteData, (l.map SatelliteData.id).Nodup →
      (allPairs l).Pairwise fun p q => ¬ samePairIds p q
  | [], _ => List.Pairwise.nil
  | x :: xs, h => by
    rw [List.map_cons, List.nodup_cons] at h
    obtain ⟨hx, hxs⟩ := h
    have hne : ∀ y ∈ xs, x.id ≠ y.id := fun y hy hcon =>
      hx (hcon ▸ List.mem_map_of_mem SatelliteData.id hy)
    have hxsPair : xs.Pairwise fun a b => a.id ≠ b.id := List.pairwise_map.mp hxs
    refine List.pairwise_append.mpr ⟨?_, allPairs_pairwise_ids xs hxs, ?_⟩
    · rw [List.pairwise_map]
      refine List.Pairwise.imp_of_mem ?_ hxsPair
      intro a b ha hb hab hsame
      rcases hsame with ⟨_, h2⟩ | ⟨h1, _⟩
      · exact hab h2
      · exact hne b hb h1
    · intro p hp q hq hsame
      rcases List.mem_map.mp hp with ⟨y, hy, rfl⟩
      have hq2 := mem_allPairs hq
      rcases hsame with ⟨h1, _⟩ | ⟨h1, _⟩
      · exact hne q.1 hq2.1 h1
      · exact hne q.2 hq2.2 h1

/-! ### The two-decimal rounding of stored distances -/

theorem roundTo2_close (x : ℝ) : |roundTo2 x - x| ≤ 1 / 200 := by
  rw [abs_le]
  unfold roundTo2 jsRound
  constructor
  · have h := Int.lt_floor_add_one (x * 100 + 1 / 2)
    nlinarith
  · have h := Int.floor_le (x * 100 + 1 / 2)
    nlinarith

/-- Separation of two positions lying on the x-axis: the scaled absolute
coordinate difference. -/
theorem sepKm_x (a b : ℝ) : sepKm ⟨a, 0, 0⟩ ⟨b, 0, 0⟩ = |(a - b) * 1000| := by
  unfold sepKm SCALE_FACTOR
  rw [show (((a - b) / (1 / 1000) : ℝ) ^ 2 + ((0 - 0) / (1 / 1000)) ^ 2 +
      ((0 - 0) / (1 / 1000)) ^ 2) = ((a - b) * 1000) ^ 2 by ring]
  exact Real.sqrt_sq_eq_abs _

/-! ### The coarse loop computes the minimum over valid samples -/

/-- The running-minimum recurrence of the coarse loop, extracted on the
sampled separations alone. -/
noncomputable def foldMin (cur : Option ℝ) (ds : List ℝ) : Option ℝ :=
  ds.foldl (fun acc d => match acc with
    | none => some d
    | some m => if d < m then some d else some m) cur

theorem minDistance_foldl (propagate : SatelliteData → ℤ → Option Vec3)
    (now : ℤ) (s1 s2 : SatelliteData) :
    ∀ (l : List ℕ) (st : ScanState),
      (l.foldl (predictStep propagate now s1 s2) st).minDistance =
        foldMin st.minDistance (l.filterMap (sampleSep propagate s1 s2 now))
  | [], _ => rfl
  | k :: l, st => by
    rw [List.foldl_cons, List.filterMap_cons,
      minDistance_foldl propagate now s1 s2 l (predictStep propagate now s1 s2 st k)]
    cases h1 : propagate s1 (now + 900000 * (k : ℤ)) with
    | none =>
      have hstep : predictStep propagate now s1 s2 st k = st := by
        unfold predictStep
        simp [h1]
      have hs : sampleSep propagate s1 s2 now k = none := by
        unfold sampleSep
        simp [h1]
      rw [hstep, hs]
    | some p1 =>
      cases h2 : propagate s2 (now + 900000 * (k : ℤ)) with
      | none =>
        have hstep : predictStep propagate now s1 s2 st k = st := by
          unfold predictStep
          simp [h1, h2]
        have hs : sampleSep propagate s1 s2 now k = none := by
          unfold sampleSep
          simp [h1, h2]
        rw [hstep, hs]
      | some p2 =>
        have hs : sampleSep propagate s1 s2 now k = some (sepKm p1 p2) := by
          unfold sampleSep
          simp [h1, h2]
        rw [hs]
        have hstep : (predictStep propagate now s1 s2 st k).minDistance =
            match st.minDistance with
            | none => some (sepKm p1 p2)
            | some m => if sepKm p1 p2 < m then some (sepKm p1 p2) else some m := by
          unfold predictStep
          cases hm : st.minDistance with
          | none => simp [h1, h2, hm]
          | some m =>
            by_cases hlt : sepKm p1 p2 < m
            · simp [h1, h2, hm, hlt]
            · simp [h1, h2, hm, hlt]
        rw [hstep]
        cases hm : st.minDistance with
        | none => rfl
        | some m =>
          by_cases hlt : sepKm p1 p2 < m
          · simp only [hlt, if_true, foldMin, List.foldl_cons]
          · simp only [hlt, if_false, foldMin, List.foldl_cons]

theorem foldMin_some_spec :
    ∀ (ds : List ℝ) (m0 : ℝ), ∃ m, foldMin (some m0) ds = some m ∧
      (m = m0 ∨ m ∈ ds) ∧ m ≤ m0 ∧ ∀ d ∈ ds, m ≤ d
  | [], m0 => ⟨m0, rfl, Or.inl rfl, le_refl m0, by simp⟩
  | d :: ds, m0 => by
    have hstep : foldMin (some m0) (d :: ds) =
        foldMin (if d < m0 then some d else some m0) ds := rfl
    by_cases hd : d < m0
    · obtain ⟨m, h1, h2, h3, h4⟩ := foldMin_some_spec ds d
      refine ⟨m, ?_, ?_, ?_, ?_⟩
      · rw [hstep, if_pos hd]; exact h1
      · rcases h2 with rfl | h2
        · exact Or.inr (List.mem_cons_self m ds)
        · exact Or.inr (List.mem_cons_of_mem d h2)
      · exact le_of_lt (lt_of_le_of_lt h3 hd)
      · intro e he
        rcases List.mem_cons.mp he with rfl | he
        · exact h3
        · exact h4 e he
    · obtain ⟨m, h1, h2, h3, h4⟩ := foldMin_some_spec ds m0
      refine ⟨m, ?_, ?_, h3, ?_⟩
      · rw [hstep, if_neg hd]; exact h1
      · rcases h2 with rfl | h2
        · exact Or.inl rfl
        · exact Or.inr (List.mem_cons_of_mem d h2)
      · intro e he
        rcases List.mem_cons.mp he with rfl | he
        · exact le_trans h3 (not_lt.mp hd)
        · exact h4 e he

/-- When the coarse loop over the 96 samples ends with a finite minimum, that
minimum is attained at one of the valid samples and bounds all of them below. -/
theorem coarse_min_is_sample_min (propagate : SatelliteData → ℤ → Option Vec3)
    (s1 s2 : SatelliteData) (now : ℤ) (m : ℝ)
    (h : ((List.range 96).foldl (predictStep propagate now s1 s2)
        ⟨none, now, s1.position, s2.position⟩).minDistance = some m) :
    m ∈ sampleDists propagate s1 s2 now ∧ ∀ d ∈ sampleDists propagate s1 s2 now, m ≤ d := by
  rw [minDistance_foldl] at h
  have hds0 : (List.range 96).filterMap (sampleSep propagate s1 s2 now) =
      sampleDists propagate s1 s2 now := rfl
  rw [hds0] at h
  rcases hds : sampleDists propagate s1 s2 now with _ | ⟨d, rest⟩
  · rw [hds] at h
    exact absurd h (by simp [foldMin])
  · rw [hds] at h
    have hcons : foldMin none (d :: rest) = foldMin (some d) rest := rfl
    rw [hcons] at h
    obtain ⟨m', h1, h2, h3, h4⟩ := foldMin_some_spec rest d
    rw [h1] at h
    have hmm : m' = m := Option.some.inj h
    rw [← hmm]
    constructor
    · rcases h2 with rfl | h2
      · exact List.mem_cons_self m' rest
      · exact List.mem_cons_of_mem d h2
    · intro e he
      rcases List.mem_cons.mp he with rfl | he
      · exact h3
      · exact h4 e he

/-- A list fold by `predictStep` leaves any state fixed by every step. -/
theorem foldl_predictStep_fixed (propagate : SatelliteData → ℤ → Option Vec3)
    (now : ℤ) (s1 s2 : SatelliteData) (st : ScanState) :
    ∀ l : List ℕ, (∀ k ∈ l, predictStep propagate now s1 s2 st k = st) →
      l.foldl (predictStep propagate now s1 s2) st = st
  | [], _ => rfl
  | k :: l, h => by
    rw [List.foldl_cons, h k (List.mem_cons_self k l)]
    exact foldl_predictStep_fixed propagate now s1 s2 st l
      fun j hj => h j (List.mem_cons_of_mem k hj)

/-- When the very first coarse sample is valid and no later valid sample is
strictly closer, the coarse loop ends in the state recorded at sample 0. -/
theorem foldl_range96_first_min (propagate : SatelliteData → ℤ → Option Vec3)
    (now : ℤ) (s1 s2 : SatelliteData) (p1 p2 : Vec3)
    (h1 : propagate s1 now = some p1) (h2 : propagate s2 now = some p2)
    (hmin : ∀ k : ℕ, 1 ≤ k → k < 96 → ∀ q1 q2,
      propagate s1 (now + 900000 * (k : ℤ)) = some q1 →
      propagate s2 (now + 900000 * (k : ℤ)) = some q2 →
      sepKm p1 p2 ≤ sepKm q1 q2) :
    (List.range 96).foldl (predictStep propagate now s1 s2)
        ⟨none, now, s1.position, s2.position⟩ =
      ⟨some (sepKm p1 p2), now, some p1, some p2⟩ := by
  rw [show (96 : ℕ) = 95 + 1 by norm_num, List.range_succ_eq_map, List.foldl_cons]
  have hfirst : predictStep propagate now s1 s2 ⟨none, now, s1.position, s2.position⟩ 0 =
      ⟨some (sepKm p1 p2), now, some p1, some p2⟩ := by
    unfold predictStep
    simp [h1, h2]
  rw [hfirst]
  apply foldl_predictStep_fixed
  intro k hk
  rcases List.mem_map.mp hk with ⟨j, hj, rfl⟩
  have hj95 : j < 95 := List.mem_range.mp hj
  unfold predictStep
  have hcast : ((Nat.succ j : ℕ) : ℤ) = (j : ℤ) + 1 := by push_cast; ring
  simp only [hcast]
  cases hq1 : propagate s1 (now + 900000 * ((j : ℤ) + 1)) with
  | none => simp [hq1]
  | some q1 =>
    cases hq2 : propagate s2 (now + 900000 * ((j : ℤ) + 1)) with
    | none => simp [hq1, hq2]
    | some q2 =>
      have hle : sepKm p1 p2 ≤ sepKm q1 q2 := by
        have hm := hmin (j + 1) (by omega) (by omega) q1 q2
        rw [show ((j + 1 : ℕ) : ℤ) = (j : ℤ) + 1 by push_cast; ring] at hm
        exact hm hq1 hq2
      simp [hq1, hq2, not_lt.mpr hle]

/-! ### Sorting facts and event inversion -/

theorem sortByDistance_sorted (l : List CollisionRisk) : (sortByDistance l).Sorted distLE :=
  List.sorted_insertionSort distLE l

theorem sortByDistance_perm (l : List CollisionRisk) : (sortByDistance l).Perm l :=
  List.perm_insertionSort distLE l

/-- Inversion of the real-time per-pair body: every emitted event records the
pair, its cached positions, and the rounded separation. -/
theorem detectPair_inv (now : ℤ) (th : ℝ) (p : SatelliteData × SatelliteData)
    (e : CollisionRisk) (h : detectPair now th p = some e) :
    e.sat1 = p.1 ∧ e.sat2 = p.2 ∧ ∃ pos1 pos2, p.1.position = some pos1 ∧
      p.2.position = some pos2 ∧ e.position1 = pos1 ∧ e.position2 = pos2 ∧
      sepKm pos1 pos2 < th ∧ e.distance = roundTo2 (sepKm pos1 pos2) ∧
      e.riskLevel = getRiskLevel (sepKm pos1 pos2) := by
  unfold detectPair at h
  cases h1 : p.1.position with
  | none => rw [h1] at h; cases h
  | some pos1 =>
    cases h2 : p.2.position with
    | none => rw [h1, h2] at h; cases h
    | some pos2 =>
      rw [h1, h2] at h
      dsimp only at h
      by_cases hlt : sepKm pos1 pos2 < th
      · rw [if_pos hlt] at h
        have he := Option.some.inj h
        subst he
        exact ⟨rfl, rfl, pos1, pos2, rfl, rfl, rfl, rfl, hlt, rfl, rfl⟩
      · rw [if_neg hlt] at h; cases h

/-- Inversion of the predictive emission test. -/
theorem predictEmit_inv (th : ℝ) (p : SatelliteData × SatelliteData)
    (st : ScanState) (e : CollisionRisk) (h : predictEmit th p st = some e) :
    ∃ m cp1 cp2, st.minDistance = some m ∧ st.closestPos1 = some cp1 ∧
      st.closestPos2 = some cp2 ∧ m < th ∧
      e = ⟨p.1.id ++ "-" ++ p.2.id ++ "-pred", p.1, p.2, roundTo2 m,
        st.closestTime, getRiskLevel m, cp1, cp2, none, none⟩ := by
  unfold predictEmit at h
  cases hm : st.minDistance with
  | none => rw [hm] at h; cases h
  | some m =>
    cases hp1 : st.closestPos1 with
    | none => rw [hm, hp1] at h; cases h
    | some cp1 =>
      cases hp2 : st.closestPos2 with
      | none => rw [hm, hp1, hp2] at h; cases h
      | some cp2 =>
        rw [hm, hp1, hp2] at h
        dsimp only at h
        by_cases hlt : m < th
        · rw [if_pos hlt] at h
          exact ⟨m, cp1, cp2, rfl, rfl, rfl, hlt, (Option.some.inj h).symm⟩
        · rw [if_neg hlt] at h; cases h

/-- Inversion of the predictive per-pair body: every emitted event's stored
distance is the rounded minimum over the valid coarse samples of its pair. -/
theorem predictPair_inv (propagate : SatelliteData → ℤ → Option Vec3)
    (th : ℝ) (now : ℤ) (p : SatelliteData × SatelliteData) (e : CollisionRisk)
    (h : predictPair propagate th now p = some e) :
    e.sat1 = p.1 ∧ e.sat2 = p.2 ∧ ∃ m, m ∈ sampleDists propagate p.1 p.2 now ∧
      (∀ d ∈ sampleDists propagate p.1 p.2 now, m ≤ d) ∧ m < th ∧
      e.distance = roundTo2 m ∧ e.riskLevel = getRiskLevel m := by
  unfold predictPair at h
  by_cases hs : (p.1.satrec && p.2.satrec) = true
  · rw [if_pos hs] at h
    obtain ⟨m, cp1, cp2, hm, hp1, hp2, hlt, he⟩ := predictEmit_inv th p _ e h
    have hmin := coarse_min_is_sample_min propagate p.1 p.2 now m hm
    subst he
    exact ⟨rfl, rfl, m, hmin.1, hmin.2, hlt, rfl, rfl⟩
  · rw [if_neg hs] at h; cases h

/-! ### Claim theorems on the generic pipelines -/

/-- Two events report the same unordered pair of object ids. -/
def samePair (e1 e2 : CollisionRisk) : Prop :=
  (e1.sat1.id = e2.sat1.id ∧ e1.sat2.id = e2.sat2.id) ∨
  (e1.sat1.id = e2.sat2.id ∧ e1.sat2.id = e2.sat1.id)

/-- C3: for every input list (with distinct object ids), the output of
`detectRealTimeCollisions` is sorted ascending by the stored distance and
contains at most one event per unordered pair of objects: no two events in
one scan report the same unordered id pair. -/
theorem detect_sorted_no_duplicate_pairs (sats : List SatelliteData)
    (th : ℝ) (now : ℤ) (h : (sats.map SatelliteData.id).Nodup) :
    (detectRealTimeCollisions sats th now).Sorted distLE ∧
    (detectRealTimeCollisions sats th now).Pairwise fun e1 e2 => ¬ samePair e1 e2 := by
  constructor
  · exact sortByDistance_sorted _
  · have hsymm : ∀ a b : CollisionRisk, ¬ samePair a b → ¬ samePair b a := by
      intro a b hab hba
      rcases hba with ⟨x, y⟩ | ⟨x, y⟩
      · exact hab (Or.inl ⟨x.symm, y.symm⟩)
      · exact hab (Or.inr ⟨y.symm, x.symm⟩)
    unfold detectRealTimeCollisions
    rw [(sortByDistance_perm _).pairwise_iff fun hab => hsymm _ _ hab]
    rw [List.pairwise_filterMap]
    refine (allPairs_pairwise_ids sats h).imp ?_
    intro p q hpq e1 he1 e2 he2 hsame
    obtain ⟨hp1, hp2, _⟩ := detectPair_inv now th p e1 he1
    obtain ⟨hq1, hq2, _⟩ := detectPair_inv now th q e2 he2
    apply hpq
    rcases hsame with ⟨ha, hb⟩ | ⟨ha, hb⟩
    · rw [hp1, hq1] at ha
      rw [hp2, hq2] at hb
      exact Or.inl ⟨ha, hb⟩
    · rw [hp1, hq2] at ha
      rw [hp2, hq1] at hb
      exact Or.inr ⟨ha, hb⟩

/-- C2 (amended): for every pair with known positions that produces an event,
the reported distance is the true 3D Euclidean separation of the two recorded
positions after unit conversion (scene units divided by `SCALE_FACTOR`,
i.e. multiplied by 1000 to kilometers), rounded to the nearest 0.01 km
(`Math.round(d * 100) / 100`); it is therefore within 1/200 km of the true
separation but not in general equal to it. -/
theorem detect_distance_rounded_euclidean (sats : List SatelliteData)
    (th : ℝ) (now : ℤ) (e : CollisionRisk)
    (h : e ∈ detectRealTimeCollisions sats th now) :
    e.distance = roundTo2 (sepKm e.position1 e.position2) ∧
    |e.distance - sepKm e.position1 e.position2| ≤ 1 / 200 := by
  unfold detectRealTimeCollisions at h
  rw [(sortByDistance_perm _).mem_iff] at h
  obtain ⟨p, _, hpe⟩ := List.mem_filterMap.mp h
  obtain ⟨_, _, pos1, pos2, _, _, hpos1, hpos2, _, hdist, _⟩ :=
    detectPair_inv now th p e hpe
  subst hpos1
  subst hpos2
  refine ⟨hdist, ?_⟩
  rw [hdist]
  exact roundTo2_close _

/-- C1 (amended): every event emitted by the 24-hour predictive search
reports exactly the minimum separation observed over the 96 coarse 15-minute
samples of its pair (rounded to 0.01 km). There is no fine refinement phase:
the reported distance is the coarse-phase minimum itself. -/
theorem predict_reports_coarse_minimum (propagate : SatelliteData → ℤ → Option Vec3)
    (sats : List SatelliteData) (th : ℝ) (now : ℤ) (e : CollisionRisk)
    (h : e ∈ predictCollisions24Hours propagate sats th now) :
    ∃ p : SatelliteData × SatelliteData, p ∈ (allPairs sats).take 10000 ∧
      e.sat1 = p.1 ∧ e.sat2 = p.2 ∧
      ∃ m, m ∈ sampleDists propagate p.1 p.2 now ∧
        (∀ d ∈ sampleDists propagate p.1 p.2 now, m ≤ d) ∧
        m < th ∧ e.distance = roundTo2 m := by
  unfold predictCollisions24Hours at h
  have h2 := (List.take_subset 50 _) h
  rw [(sortByDistance_perm _).mem_iff] at h2
  obtain ⟨p, hp, hpe⟩ := List.mem_filterMap.mp h2
  obtain ⟨hs1, hs2, m, hm1, hm2, hm3, hm4, _⟩ := predictPair_inv propagate th now p e hpe
  exact ⟨p, hp, hs1, hs2, m, hm1, hm2, hm3, hm4⟩

/-- C8: for every input, the 24-hour predictive search returns at most 50
events, sorted ascending by distance, and the events returned are the
lowest-distance candidates found: the output extends, by some remainder of
candidates all at greater-or-equal distance, to a permutation of the full
candidate set. -/
theorem predict_cap_sorted_lowest (propagate : SatelliteData → ℤ → Option Vec3)
    (sats : List SatelliteData) (th : ℝ) (now : ℤ) :
    (predictCollisions24Hours propagate sats th now).length ≤ 50 ∧
    (predictCollisions24Hours propagate sats th now).Sorted distLE ∧
    ∃ rest : List CollisionRisk,
      (predictCollisions24Hours propagate sats th now ++ rest).Perm
        (predictCandidates propagate sats th now) ∧
      ∀ a ∈ predictCollisions24Hours propagate sats th now, ∀ b ∈ rest,
        a.distance ≤ b.distance := by
  refine ⟨List.length_take_le 50 _, ?_, ?_⟩
  · exact List.Pairwise.sublist (List.take_sublist 50 _) (sortByDistance_sorted _)
  · refine ⟨(sortByDistance (predictCandidates propagate sats th now)).drop 50, ?_, ?_⟩
    · unfold predictCollisions24Hours
      rw [List.take_append_drop]
      exact sortByDistance_perm _
    · intro a ha b hb
      exact (sortByDistance_sorted
        (predictCandidates propagate sats th now)).rel_of_mem_take_of_mem_drop ha hb

/-- The real-time qualification test for a pair: both cached positions exist
and the converted separation is strictly below the threshold. -/
noncomputable def qualifiesB (th : ℝ) (p : SatelliteData × SatelliteData) : Bool :=
  match p.1.position, p.2.position with
  | some pos1, some pos2 => decide (sepKm pos1 pos2 < th)
  | _, _ => false

theorem length_filterMap_eq_countP {α β : Type} (f : α → Option β) :
    ∀ l : List α, (l.filterMap f).length = l.countP fun a => (f a).isSome
  | [] => rfl
  | x :: xs => by
    cases hfx : f x with
    | none => simp [List.filterMap_cons, hfx, List.countP_cons,
        length_filterMap_eq_countP f xs]
    | some b => simp [List.filterMap_cons, hfx, List.countP_cons,
        length_filterMap_eq_countP f xs]

theorem detectPair_isSome_eq_qualifiesB (now : ℤ) (th : ℝ)
    (p : SatelliteData × SatelliteData) :
    (detectPair now th p).isSome = qualifiesB th p := by
  unfold detectPair qualifiesB
  cases h1 : p.1.position with
  | none => rfl
  | some pos1 =>
    cases h2 : p.2.position with
    | none => rfl
    | some pos2 =>
      by_cases hlt : sepKm pos1 pos2 < th
      · simp [hlt]
      · simp [hlt]

/-- A synthetic family of inputs: `n` objects, all with a known position at
the origin and pairwise separation `0`. -/
def cloudSat (i : ℕ) : SatelliteData := ⟨toString i, "cloud", some ⟨0, 0, 0⟩, true⟩

/-- `n` coincident objects. -/
def cloudSats (n : ℕ) : List SatelliteData := (List.range n).map cloudSat

/-- C10: `detectRealTimeCollisions` has no result-count cap: its output length
is exactly the number of qualifying unordered pairs (one event per pair with
known positions and converted separation below the threshold, unlike the
predictive search's 50-event cap), and on `n` coincident objects it returns
all `n.choose 2` pairwise events, growing quadratically. -/
theorem detect_uncapped_quadratic :
    (∀ (sats : List SatelliteData) (th : ℝ) (now : ℤ),
      (detectRealTimeCollisions sats th now).length =
        ((allPairs sats).filter (qualifiesB th)).length) ∧
    ∀ n : ℕ, (detectRealTimeCollisions (cloudSats n) 50 0).length = n.choose 2 := by
  have hmain : ∀ (sats : List SatelliteData) (th : ℝ) (now : ℤ),
      (detectRealTimeCollisions sats th now).length =
        ((allPairs sats).filter (qualifiesB th)).length := by
    intro sats th now
    unfold detectRealTimeCollisions
    rw [(sortByDistance_perm _).length_eq, length_filterMap_eq_countP]
    rw [List.countP_congr fun p _ => by rw [detectPair_isSome_eq_qualifiesB now th p]]
    exact List.countP_eq_length_filter _ _
  refine ⟨hmain, ?_⟩
  intro n
  rw [hmain]
  have hall : ∀ p ∈ allPairs (cloudSats n), qualifiesB 50 p = true := by
    intro p hp
    obtain ⟨hp1, hp2⟩ := mem_allPairs hp
    have hpos : ∀ s ∈ cloudSats n, s.position = some ⟨0, 0, 0⟩ := by
      intro s hs
      obtain ⟨i, _, rfl⟩ := List.mem_map.mp hs
      rfl
    unfold qualifiesB
    rw [hpos p.1 hp1, hpos p.2 hp2]
    have hsep : sepKm ⟨0, 0, 0⟩ ⟨0, 0, 0⟩ = 0 := by
      rw [sepKm_x]
      norm_num
    simp only [hsep]
    rw [decide_eq_true_eq]
    norm_num
  rw [List.filter_eq_self.mpr hall, length_allPairs]
  simp [cloudSats]

/-- Severity rank of a risk level: `low < medium < high < critical`. -/
def severity : RiskLevel → ℕ
  | .low => 0
  | .medium => 1
  | .high => 2
  | .critical => 3

/-- C4: the risk level is a pure, deterministic, monotonic step function of
distance in kilometers: the bands are exactly `critical` for `d ≤ 1`, `high`
for `1 < d ≤ 10`, `medium` for `10 < d ≤ 25` and `low` otherwise (so the
boundary values 1, 10, 25 fall in the stricter band), and larger distances
never yield higher severity. -/
theorem getRiskLevel_bands_and_antitone :
    (∀ d : ℝ, (getRiskLevel d = .critical ↔ d ≤ 1) ∧
      (getRiskLevel d = .high ↔ 1 < d ∧ d ≤ 10) ∧
      (getRiskLevel d = .medium ↔ 10 < d ∧ d ≤ 25) ∧
      (getRiskLevel d = .low ↔ 25 < d)) ∧
    ∀ d1 d2 : ℝ, d1 ≤ d2 → severity (getRiskLevel d2) ≤ severity (getRiskLevel d1) := by
  constructor
  · intro d
    unfold getRiskLevel
    split_ifs with h1 h2 h3
    · exact ⟨iff_of_true rfl h1,
        iff_of_false (by decide) (by rintro ⟨ha, _⟩; linarith),
        iff_of_false (by decide) (by rintro ⟨ha, _⟩; linarith),
        iff_of_false (by decide) (by intro ha; linarith)⟩
    · exact ⟨iff_of_false (by decide) fun hc => h1 hc,
        iff_of_true rfl ⟨not_le.mp h1, h2⟩,
        iff_of_false (by decide) (by rintro ⟨ha, _⟩; linarith),
        iff_of_false (by decide) (by intro ha; linarith)⟩
    · exact ⟨iff_of_false (by decide) fun hc => h1 hc,
        iff_of_false (by decide) (by rintro ⟨_, hb⟩; exact h2 hb),
        iff_of_true rfl ⟨not_le.mp h2, h3⟩,
        iff_of_false (by decide) (by intro ha; linarith)⟩
    · exact ⟨iff_of_false (by decide) fun hc => h1 hc,
        iff_of_false (by decide) (by rintro ⟨_, hb⟩; exact h2 hb),
        iff_of_false (by decide) (by rintro ⟨_, hb⟩; exact h3 hb),
        iff_of_true rfl (not_le.mp h3)⟩
  · intro d1 d2 h
    unfold getRiskLevel
    split_ifs <;> simp [severity] <;> linarith

/-! ### Modelled parts of the enhanced detector interface

`CollisionPanel.tsx` under `src/` imports `CoverageMode`, `COVERAGE_CONFIGS`
and `PredictionProgress` from the enhanced collision-detector module, but
that module itself is not among the available sources; the following
definitions are modelled from the spec and from the panel's uses. -/

/-- Phase tags of the predictive search's progress reporting, as matched by
`CollisionPanel.tsx` (`filtering`, `coarse`, `refining`, `complete`). -/
inductive PredictionPhase where
  | filtering
  | coarse
  | refining
  | complete
deriving DecidableEq

/-- Modelled from the spec: `PredictionProgress` (§3) — current phase tag,
percent complete (0–100) and a human-readable status string, consumed by
`CollisionPanel.tsx`. -/
structure PredictionProgress where
  phase : PredictionPhase
  progress : ℕ
  message : String

/-- Modelled from the spec: the progress updates emitted during one
predictive-search invocation (§4.2) — an update after the filtering phase,
one per pair completed within the coarse phase, one after refinement, and a
terminal `complete` update at exactly 100; the enhanced engine emitting them
is not among the available sources. Percents follow the phase budget
5 / up to 90 / 95 / 100. -/
def progressTrace (numPairs : ℕ) : List PredictionProgress :=
  ⟨.filtering, 5, "Pre-filtering orbits"⟩ ::
    ((List.range numPairs).map fun k =>
      ⟨.coarse, 5 + 85 * (k + 1) / numPairs, "Coarse scan"⟩) ++
    [⟨.refining, 95, "Fine refinement"⟩, ⟨.complete, 100, "Complete"⟩]

/-- Modelled from the spec: one predictive-search invocation observed through
its progress stream — the result of `predictCollisions24Hours` paired with
the progress updates for the number of processed pairs. -/
noncomputable def predictWithProgress (propagate : SatelliteData → ℤ → Option Vec3)
    (sats : List SatelliteData) (th : ℝ) (now : ℤ) :
    List CollisionRisk × List PredictionProgress :=
  (predictCollisions24Hours propagate sats th now,
    progressTrace ((allPairs sats).take 10000).length)

theorem coarsePercent_le_90 (n k : ℕ) (hk : k < n) : 5 + 85 * (k + 1) / n ≤ 90 := by
  have hn : 0 < n := Nat.lt_of_le_of_lt (Nat.zero_le k) hk
  have hdiv : 85 * (k + 1) / n ≤ 85 := by
    calc 85 * (k + 1) / n ≤ 85 * n / n := Nat.div_le_div_right (Nat.mul_le_mul_left 85 hk)
      _ = 85 := Nat.mul_div_cancel 85 hn
  omega

theorem progressTrace_chain (n : ℕ) :
    List.Chain' (fun a b => a.progress ≤ b.progress) (progressTrace n) := by
  apply List.Pairwise.chain'
  unfold progressTrace
  rw [List.pairwise_append]
  refine ⟨?_, ?_, ?_⟩
  · rw [List.pairwise_cons]
    constructor
    · intro b hb
      rcases List.mem_map.mp hb with ⟨k, _, rfl⟩
      exact Nat.le_add_right 5 _
    · rw [List.pairwise_map]
      refine (List.pairwise_lt_range n).imp ?_
      intro k j hkj
      exact Nat.add_le_add_left
        (Nat.div_le_div_right (Nat.mul_le_mul_left 85 (by omega))) 5
  · rw [List.pairwise_cons]
    refine ⟨?_, List.pairwise_singleton _ _⟩
    intro b hb
    rcases List.mem_cons.mp hb with rfl | hb
    · norm_num
    · exact absurd hb (List.not_mem_nil b)
  · intro a ha b hb
    have ha95 : a.progress ≤ 95 := by
      rcases List.mem_cons.mp ha with rfl | ha
      · norm_num
      · rcases List.mem_map.mp ha with ⟨k, hk, rfl⟩
        exact le_trans (coarsePercent_le_90 n k (List.mem_range.mp hk)) (by norm_num)
    rcases List.mem_cons.mp hb with rfl | hb
    · exact ha95
    · rcases List.mem_cons.mp hb with rfl | hb
      · exact le_trans ha95 (by norm_num)
      · exact absurd hb (List.not_mem_nil b)

theorem progressTrace_last (n : ℕ) :
    (progressTrace n).getLast? = some ⟨.complete, 100, "Complete"⟩ := by
  unfold progressTrace
  rw [show ([⟨.refining, 95, "Fine refinement"⟩,
      (⟨.complete, 100, "Complete"⟩ : PredictionProgress)] : List PredictionProgress) =
    [⟨.refining, 95, "Fine refinement"⟩] ++ [⟨.complete, 100, "Complete"⟩] from rfl,
    ← List.append_assoc]
  exact List.getLast?_concat _

theorem progressTrace_phases (n : ℕ) :
    (progressTrace n).map PredictionProgress.phase =
      .filtering :: (List.replicate n PredictionPhase.coarse ++ [.refining, .complete]) := by
  unfold progressTrace
  rw [List.map_append, List.map_cons, List.map_map,
    show (PredictionProgress.phase ∘ fun k : ℕ =>
        (⟨.coarse, 5 + 85 * (k + 1) / n, "Coarse scan"⟩ : PredictionProgress)) =
      fun _ : ℕ => PredictionPhase.coarse from rfl]
  simp

/-- C5: within one predictive-search invocation, the emitted progress updates
have non-decreasing percent values across successive updates, carry the phase
tags in phase order (filtering, then one coarse update per processed pair,
then refining), and terminate with phase `complete` at exactly 100. -/
theorem progress_monotone_complete (propagate : SatelliteData → ℤ → Option Vec3)
    (sats : List SatelliteData) (th : ℝ) (now : ℤ) :
    List.Chain' (fun a b => a.progress ≤ b.progress)
      (predictWithProgress propagate sats th now).2 ∧
    (predictWithProgress propagate sats th now).2.getLast? =
      some ⟨.complete, 100, "Complete"⟩ ∧
    (predictWithProgress propagate sats th now).2.map PredictionProgress.phase =
      .filtering :: (List.replicate ((allPairs sats).take 10000).length
        PredictionPhase.coarse ++ [.refining, .complete]) :=
  ⟨progressTrace_chain _, progressTrace_last _, progressTrace_phases _⟩

/-- Modelled from the spec: `CoverageConfiguration` (§3) — label, description
and maximum object count, as read by `CollisionPanel.tsx`
(`config.satelliteLimit`, `cfg.label`, `cfg.description`). -/
structure CoverageConfig where
  label : String
  description : String
  satelliteLimit : ℕ

/-- Modelled from the spec: `COVERAGE_CONFIGS`, the static keyed mapping of
coverage-mode name to configuration (§4.4, §6). §9 records that the source is
"originally a static keyed lookup" whose invalid-mode lookups have
undefined-lookup behavior; the enhanced module defining the full mapping is
not among the available sources. `standard` (the panel's default, capped at
200 per §8's scenario) and `full` (no cap, special-cased by the panel) are
the modes witnessed by `src/`; an unknown key yields `none` (JS `undefined`). -/
def COVERAGE_CONFIGS : String → Option CoverageConfig
  | "standard" => some ⟨"Standard", "Top 200 satellites", 200⟩
  | "full" => some ⟨"Full", "All satellites", 500⟩
  | _ => none

/-- The effective-object-count computation at the invocation surface
(`CollisionPanel.tsx` lines 43–46): `const config =
COVERAGE_CONFIGS[coverageMode]` then `coverageMode === 'full' ?
totalSatellites : Math.min(config.satelliteLimit, totalSatellites)`.
Reading `satelliteLimit` off an `undefined` config — the unknown-mode case —
is a JS `TypeError`, modelled as `none`. -/
def effectiveSatellites (coverageMode : String) (total : ℕ) : Option ℕ :=
  if coverageMode = "full" then some total
  else
    match COVERAGE_CONFIGS coverageMode with
    | some cfg => some (min cfg.satelliteLimit total)
    | none => none

/-- C6 counterexample: invoking with the unknown coverage mode name `"turbo"`
does not fail fast with a clear error: the static keyed lookup yields
`undefined` (modelled `none`) and the invocation-path computation
dereferences it (a JS `TypeError`), i.e. undefined-lookup behavior — while a
known mode proceeds normally. -/
theorem coverage_unknown_mode_counterexample :
    COVERAGE_CONFIGS "turbo" = none ∧ effectiveSatellites "turbo" 500 = none ∧
    effectiveSatellites "standard" 500 = some 200 :=
  ⟨rfl, rfl, rfl⟩

/-- C6 (amended): the coverage-mode surface performs no fail-fast validation:
an invocation fails — with undefined-lookup behavior (`TypeError` on the
`undefined` config, modelled `none`), not a clear invocation-time error —
exactly when the mode is not `"full"` and the static keyed lookup finds no
configuration; known modes proceed normally (`standard` caps at 200). -/
theorem coverage_mode_lookup_behavior :
    (∀ (mode : String) (total : ℕ),
      effectiveSatellites mode total = none ↔
        mode ≠ "full" ∧ COVERAGE_CONFIGS mode = none) ∧
    ∀ total : ℕ, effectiveSatellites "standard" total = some (min 200 total) := by
  constructor
  · intro mode total
    unfold effectiveSatellites
    by_cases hf : mode = "full"
    · simp [hf]
    · rw [if_neg hf]
      cases hc : COVERAGE_CONFIGS mode with
      | none => simp [hf, hc]
      | some cfg => simp [hf, hc]
  · intro total
    rfl

/-- `CollisionCard`'s stale-data flag (`CollisionPanel.tsx` lines 203–208):
`hasTleAge = tleAge1 !== undefined && tleAge2 !== undefined` and
`tleAgeWarning = hasTleAge && (tleAge1! > 168 || tleAge2! > 168)`. -/
def tleAgeWarning (c : CollisionRisk) : Prop :=
  match c.tleAge1, c.tleAge2 with
  | some a1, some a2 => 168 < a1 ∨ 168 < a2
  | _, _ => False

/-- An event with the given element ages and every other field unchanged. -/
def setTleAges (c : CollisionRisk) (a1 a2 : Option ℝ) : CollisionRisk :=
  ⟨c.id, c.sat1, c.sat2, c.distance, c.timeOfClosestApproach, c.riskLevel,
    c.position1, c.position2, a1, a2⟩

/-- A placeholder object for concrete stale-data events. -/
def satX : SatelliteData := ⟨"x", "X", none, false⟩

/-- A second placeholder object for concrete stale-data events. -/
def satY : SatelliteData := ⟨"y", "Y", none, false⟩

/-- A reported close approach whose first object has element age 200 hours
and whose second object's age is unknown. -/
def staleOneSided : CollisionRisk :=
  ⟨"x-y", satX, satY, 20, 0, .medium, ⟨0, 0, 0⟩, ⟨0, 0, 0⟩, some 200, none⟩

/-- C7 counterexample: an event one of whose objects has element age 200
hours (exceeding 168) is nevertheless not flagged, because the card's
`hasTleAge` guard requires both ages to be known: the claim's "if either
object has age exceeding 168 hours the event carries a stale-data flag"
fails on this event. -/
theorem tleAge_one_sided_counterexample :
    staleOneSided.tleAge1 = some 200 ∧ (168 : ℝ) < 200 ∧
    ¬ tleAgeWarning staleOneSided :=
  ⟨rfl, by norm_num, by simp [tleAgeWarning, staleOneSided]⟩

/-- C7 (amended): the stale-data flag is set exactly when both objects'
element ages are known and either exceeds 168 hours (7 days); an event with
ages 200 h and 50 h is flagged, one with ages 50 h and 50 h is not; and the
ages never affect the event's risk level or distance. -/
theorem tleAgeWarning_spec :
    (∀ (c : CollisionRisk) (a1 a2 : ℝ),
      tleAgeWarning (setTleAges c (some a1) (some a2)) ↔ 168 < a1 ∨ 168 < a2) ∧
    (∀ (c : CollisionRisk) (a1 a2 : Option ℝ),
      (setTleAges c a1 a2).riskLevel = c.riskLevel ∧
      (setTleAges c a1 a2).distance = c.distance) ∧
    (∀ c : CollisionRisk, tleAgeWarning (setTleAges c (some 200) (some 50))) ∧
    ∀ c : CollisionRisk, ¬ tleAgeWarning (setTleAges c (some 50) (some 50)) := by
  refine ⟨?_, ?_, ?_, ?_⟩
  · intro c a1 a2
    exact Iff.rfl
  · intro c a1 a2
    exact ⟨rfl, rfl⟩
  · intro c
    exact Or.inl (by norm_num)
  · intro c h
    rcases h with h | h <;> norm_num at h

/-! ### Concrete scenario evaluation helpers -/

theorem jsRound_eq (x : ℝ) (n : ℤ) (h1 : (n : ℝ) ≤ x + 1 / 2)
    (h2 : x + 1 / 2 < (n : ℝ) + 1) : jsRound x = n := by
  unfold jsRound
  rw [Int.floor_eq_iff]
  exact ⟨h1, h2⟩

theorem roundTo2_eq (x : ℝ) (n : ℤ) (h1 : (n : ℝ) ≤ x * 100 + 1 / 2)
    (h2 : x * 100 + 1 / 2 < (n : ℝ) + 1) : roundTo2 x = (n : ℝ) / 100 := by
  unfold roundTo2
  rw [jsRound_eq (x * 100) n h1 h2]

theorem abs_eval (x y : ℝ) (h : x = -y) (hy : 0 ≤ y) : |x| = y := by
  rw [h, abs_neg, abs_of_nonneg hy]

theorem roundTo2_ten : roundTo2 (10 : ℝ) = 10 := by
  rw [roundTo2_eq 10 1000 (by norm_num) (by norm_num)]
  norm_num

theorem getRiskLevel_ten : getRiskLevel (10 : ℝ) = .high := by
  unfold getRiskLevel
  rw [if_neg (by norm_num : ¬ (10 : ℝ) ≤ 1), if_pos (le_refl (10 : ℝ))]

/-- The real-time scan of a two-object list is the per-pair body of its
single pair. -/
theorem detect_two (s1 s2 : SatelliteData) (th : ℝ) (now : ℤ) :
    detectRealTimeCollisions [s1, s2] th now = (detectPair now th (s1, s2)).toList := by
  have hpairs : allPairs [s1, s2] = [(s1, s2)] := by simp [allPairs]
  unfold detectRealTimeCollisions
  rw [hpairs]
  cases h : detectPair now th (s1, s2) with
  | none => simp [sortByDistance, h]
  | some e => simp [sortByDistance, h]

/-- The predictive scan of a two-object list is the per-pair body of its
single pair. -/
theorem predict_two (propagate : SatelliteData → ℤ → Option Vec3)
    (s1 s2 : SatelliteData) (th : ℝ) (now : ℤ) :
    predictCollisions24Hours propagate [s1, s2] th now =
      (predictPair propagate th now (s1, s2)).toList := by
  have hpairs : allPairs [s1, s2] = [(s1, s2)] := by simp [allPairs]
  unfold predictCollisions24Hours predictCandidates
  rw [hpairs]
  cases h : predictPair propagate th now (s1, s2) with
  | none => simp [sortByDistance, h]
  | some e => simp [sortByDistance, h]

/-- Scenario object "a" at the origin. -/
noncomputable def satA : SatelliteData := ⟨"a", "A", some ⟨0, 0, 0⟩, true⟩

/-- Scenario object "b", 0.5 km from `satA` (0.0005 scene units on the
x-axis). -/
noncomputable def satB : SatelliteData := ⟨"b", "B", some ⟨0.0005, 0, 0⟩, true⟩

/-- The single event of the 0.5 km scenario: distance 0.50, risk critical. -/
noncomputable def eventAB : CollisionRisk :=
  ⟨"a-b", satA, satB, 1 / 2, 0, .critical, ⟨0, 0, 0⟩, ⟨0.0005, 0, 0⟩, none, none⟩

theorem sepAB : sepKm ⟨0, 0, 0⟩ ⟨0.0005, 0, 0⟩ = 1 / 2 := by
  rw [sepKm_x]
  exact abs_eval _ _ (by norm_num) (by norm_num)

theorem detectAB : detectRealTimeCollisions [satA, satB] 50 0 = [eventAB] := by
  rw [detect_two]
  have hround : roundTo2 (1 / 2 : ℝ) = 1 / 2 := by
    rw [roundTo2_eq (1 / 2) 50 (by norm_num) (by norm_num)]
    norm_num
  have hrisk : getRiskLevel (1 / 2 : ℝ) = .critical := by
    unfold getRiskLevel
    rw [if_pos (by norm_num : (1 / 2 : ℝ) ≤ 1)]
  unfold detectPair
  show ((match satA.position, satB.position with
    | some pos1, some pos2 =>
      if sepKm pos1 pos2 < 50 then
        some ⟨satA.id ++ "-" ++ satB.id, satA, satB, roundTo2 (sepKm pos1 pos2), 0,
          getRiskLevel (sepKm pos1 pos2), pos1, pos2, none, none⟩
      else none
    | _, _ => none : Option CollisionRisk)).toList = [eventAB]
  rw [show satA.position = some ⟨0, 0, 0⟩ from rfl,
    show satB.position = some ⟨0.0005, 0, 0⟩ from rfl]
  dsimp only
  rw [sepAB, if_pos (by norm_num : (1 / 2 : ℝ) < 50), hround, hrisk]
  rfl

/-- C2 witness: in the 0.5 km scenario the single reported event's distance
equals the rounded true separation (here exactly 0.50) and is within 1/200 km
of it. -/
theorem detect_distance_rounded_euclidean_witness :
    eventAB ∈ detectRealTimeCollisions [satA, satB] 50 0 ∧
    (eventAB.distance = roundTo2 (sepKm eventAB.position1 eventAB.position2) ∧
      |eventAB.distance - sepKm eventAB.position1 eventAB.position2| ≤ 1 / 200) := by
  have hm : eventAB ∈ detectRealTimeCollisions [satA, satB] 50 0 := by
    rw [detectAB]
    exact List.mem_singleton.mpr rfl
  exact ⟨hm, detect_distance_rounded_euclidean [satA, satB] 50 0 eventAB hm⟩

/-- C3 witness: the 0.5 km scenario's input has distinct ids, and the scan's
output is sorted with no duplicate unordered pair. -/
theorem detect_sorted_no_duplicate_pairs_witness :
    ([satA, satB].map SatelliteData.id).Nodup ∧
    ((detectRealTimeCollisions [satA, satB] 50 0).Sorted distLE ∧
      (detectRealTimeCollisions [satA, satB] 50 0).Pairwise fun e1 e2 => ¬ samePair e1 e2) :=
  ⟨by decide, detect_sorted_no_duplicate_pairs [satA, satB] 50 0 (by decide)⟩

/-- C4 witness: at the concrete distances 0.5 km and 30 km, the smaller
distance gets the (weakly) more severe level. -/
theorem getRiskLevel_bands_and_antitone_witness :
    ((1 : ℝ) / 2 ≤ 30) ∧
    severity (getRiskLevel 30) ≤ severity (getRiskLevel (1 / 2)) :=
  ⟨by norm_num, getRiskLevel_bands_and_antitone.2 (1 / 2) 30 (by norm_num)⟩

/-- Scenario object "c" at the origin. -/
noncomputable def satC : SatelliteData := ⟨"c", "C", some ⟨0, 0, 0⟩, true⟩

/-- Scenario object "d", 30.004 km from `satC` (0.030004 scene units on the
x-axis). -/
noncomputable def satD : SatelliteData := ⟨"d", "D", some ⟨0.030004, 0, 0⟩, true⟩

/-- The single event of the 30.004 km scenario: the stored distance has been
rounded to 30. -/
noncomputable def eventCD : CollisionRisk :=
  ⟨"c-d", satC, satD, 30, 0, .low, ⟨0, 0, 0⟩, ⟨0.030004, 0, 0⟩, none, none⟩

theorem sepCD : sepKm ⟨0, 0, 0⟩ ⟨0.030004, 0, 0⟩ = 7501 / 250 := by
  rw [sepKm_x]
  exact abs_eval _ _ (by norm_num) (by norm_num)

theorem detectCD : detectRealTimeCollisions [satC, satD] 50 0 = [eventCD] := by
  rw [detect_two]
  have hround : roundTo2 (7501 / 250 : ℝ) = 30 := by
    rw [roundTo2_eq (7501 / 250) 3000 (by norm_num) (by norm_num)]
    norm_num
  have hrisk : getRiskLevel (7501 / 250 : ℝ) = .low := by
    unfold getRiskLevel
    rw [if_neg (by norm_num : ¬ (7501 / 250 : ℝ) ≤ 1),
      if_neg (by norm_num : ¬ (7501 / 250 : ℝ) ≤ 10),
      if_neg (by norm_num : ¬ (7501 / 250 : ℝ) ≤ 25)]
  unfold detectPair
  show ((match satC.position, satD.position with
    | some pos1, some pos2 =>
      if sepKm pos1 pos2 < 50 then
        some ⟨satC.id ++ "-" ++ satD.id, satC, satD, roundTo2 (sepKm pos1 pos2), 0,
          getRiskLevel (sepKm pos1 pos2), pos1, pos2, none, none⟩
      else none
    | _, _ => none : Option CollisionRisk)).toList = [eventCD]
  rw [show satC.position = some ⟨0, 0, 0⟩ from rfl,
    show satD.position = some ⟨0.030004, 0, 0⟩ from rfl]
  dsimp only
  rw [sepCD, if_pos (by norm_num : (7501 / 250 : ℝ) < 50), hround, hrisk]
  rfl

/-- C2 counterexample: for a pair whose true separation is 30.004 km, the
reported distance is 30 km — off by 0.004 km (1/250), a rounding quantum far
beyond floating-point tolerance — so the reported distance does not equal the
true Euclidean separation. -/
theorem detect_distance_rounding_counterexample :
    detectRealTimeCollisions [satC, satD] 50 0 = [eventCD] ∧
    sepKm eventCD.position1 eventCD.position2 = 7501 / 250 ∧
    eventCD.distance = 30 ∧
    eventCD.distance ≠ sepKm eventCD.position1 eventCD.position2 ∧
    |eventCD.distance - sepKm eventCD.position1 eventCD.position2| = 1 / 250 := by
  have hpos1 : eventCD.position1 = ⟨0, 0, 0⟩ := rfl
  have hpos2 : eventCD.position2 = ⟨0.030004, 0, 0⟩ := rfl
  refine ⟨detectCD, ?_, rfl, ?_, ?_⟩
  · rw [hpos1, hpos2, sepCD]
  · rw [hpos1, hpos2, sepCD, show eventCD.distance = (30 : ℝ) from rfl]
    norm_num
  · rw [hpos1, hpos2, sepCD, show eventCD.distance = (30 : ℝ) from rfl]
    exact abs_eval _ _ (by norm_num) (by norm_num)

/-! ### Synthetic pair whose true minimum falls between coarse samples -/

/-- Position of the moving synthetic object at time `t` (ms): on the x-axis,
at kilometer distance `|t - 450000| / 90000 + 5` from the origin. Its true
closest approach to the origin is 5 km at `t = 450000` ms (7.5 minutes),
midway between coarse samples 0 and 1; at every coarse sample
`t = 900000·k` the separation is `10·max(k,1) ≥ 10` km. -/
noncomputable def synPos (t : ℤ) : Vec3 :=
  ⟨(|(t : ℝ) - 450000| / 90000 + 5) / 1000, 0, 0⟩

/-- The synthetic pair's separation (km) at time `t`. -/
noncomputable def synSep (t : ℤ) : ℝ := sepKm ⟨0, 0, 0⟩ (synPos t)

/-- The stationary synthetic object, at the origin. -/
noncomputable def satP : SatelliteData := ⟨"syn-p", "P", some ⟨0, 0, 0⟩, true⟩

/-- The moving synthetic object. -/
noncomputable def satQ : SatelliteData := ⟨"syn-q", "Q", some (synPos 0), true⟩

/-- The synthetic propagator: `satQ` follows `synPos`, everything else sits
at the origin. -/
noncomputable def synProp (s : SatelliteData) (t : ℤ) : Option Vec3 :=
  if s.id = "syn-q" then some (synPos t) else some ⟨0, 0, 0⟩

theorem synSep_eq (t : ℤ) : synSep t = |(t : ℝ) - 450000| / 90000 + 5 := by
  unfold synSep synPos
  rw [sepKm_x, show ((0 : ℝ) - (|(t : ℝ) - 450000| / 90000 + 5) / 1000) * 1000 =
    -(|(t : ℝ) - 450000| / 90000 + 5) by ring, abs_neg, abs_of_nonneg (by positivity)]

theorem synSep_zero : synSep 0 = 10 := by
  rw [synSep_eq]
  rw [show ((0 : ℤ) : ℝ) - 450000 = -450000 by norm_num, abs_neg,
    abs_of_nonneg (by norm_num : (0 : ℝ) ≤ 450000)]
  norm_num

theorem synSep_sample_ge (k : ℕ) (hk : 1 ≤ k) : 10 ≤ synSep (900000 * (k : ℤ)) := by
  rw [synSep_eq]
  have hcast : ((900000 * (k : ℤ) : ℤ) : ℝ) = 900000 * (k : ℝ) := by push_cast; ring
  rw [hcast]
  have hk1 : (1 : ℝ) ≤ (k : ℝ) := by exact_mod_cast hk
  have habs : |900000 * (k : ℝ) - 450000| = 900000 * (k : ℝ) - 450000 :=
    abs_of_nonneg (by nlinarith)
  rw [habs]
  nlinarith

theorem synSep_ge_five (t : ℤ) : 5 ≤ synSep t := by
  rw [synSep_eq]
  have h1 := abs_nonneg ((t : ℝ) - 450000)
  have h2 := div_nonneg h1 (by norm_num : (0 : ℝ) ≤ 90000)
  linarith

theorem synSep_mid : synSep 450000 = 5 := by
  rw [synSep_eq]
  norm_num

/-- `m` is the minimum separation over the 24-hour horizon starting at time 0
of the (millisecond-resolution) trajectory `sep`. -/
def isMinOnHorizon (sep : ℤ → ℝ) (m : ℝ) : Prop :=
  (∃ t : ℤ, 0 ≤ t ∧ t ≤ 86400000 ∧ sep t = m) ∧
  ∀ t : ℤ, 0 ≤ t → t ≤ 86400000 → m ≤ sep t

/-- The single event of the synthetic scenario: the coarse sample minimum
10 km, recorded at sample 0. -/
noncomputable def synEvent : CollisionRisk :=
  ⟨"syn-p-syn-q-pred", satP, satQ, 10, 0, .high, ⟨0, 0, 0⟩, synPos 0, none, none⟩

theorem synProp_p (t : ℤ) : synProp satP t = some ⟨0, 0, 0⟩ := by
  unfold synProp
  rw [if_neg (by decide : ¬ satP.id = "syn-q")]

theorem synProp_q (t : ℤ) : synProp satQ t = some (synPos t) := by
  unfold synProp
  rw [if_pos (show satQ.id = "syn-q" from rfl)]

theorem synState :
    (List.range 96).foldl (predictStep synProp 0 satP satQ)
        ⟨none, 0, satP.position, satQ.position⟩ =
      ⟨some (sepKm ⟨0, 0, 0⟩ (synPos 0)), 0, some ⟨0, 0, 0⟩, some (synPos 0)⟩ := by
  apply foldl_range96_first_min synProp 0 satP satQ ⟨0, 0, 0⟩ (synPos 0)
    (synProp_p 0) (synProp_q 0)
  intro k hk1 _ q1 q2 hq1 hq2
  rw [synProp_p] at hq1
  rw [synProp_q] at hq2
  obtain rfl : (⟨0, 0, 0⟩ : Vec3) = q1 := Option.some.inj hq1
  obtain rfl : synPos (0 + 900000 * (k : ℤ)) = q2 := Option.some.inj hq2
  show sepKm ⟨0, 0, 0⟩ (synPos 0) ≤ sepKm ⟨0, 0, 0⟩ (synPos (0 + 900000 * (k : ℤ)))
  rw [show sepKm ⟨0, 0, 0⟩ (synPos 0) = synSep 0 from rfl,
    show sepKm ⟨0, 0, 0⟩ (synPos (0 + 900000 * (k : ℤ))) =
      synSep (900000 * (k : ℤ)) by rw [zero_add]; rfl,
    synSep_zero]
  exact synSep_sample_ge k hk1

theorem synOut : predictCollisions24Hours synProp [satP, satQ] 50 0 = [synEvent] := by
  rw [predict_two]
  unfold predictPair
  rw [if_pos (by decide : (satP.satrec && satQ.satrec) = true)]
  rw [show ((satP, satQ).1 : SatelliteData) = satP from rfl,
    show ((satP, satQ).2 : SatelliteData) = satQ from rfl]
  rw [synState]
  unfold predictEmit
  dsimp only
  rw [show sepKm ⟨0, 0, 0⟩ (synPos 0) = synSep 0 from rfl, synSep_zero]
  rw [if_pos (by norm_num : (10 : ℝ) < 50), roundTo2_ten, getRiskLevel_ten]
  rfl

/-- C1 counterexample: on a synthetic pair whose true minimum separation is
5 km at t = 450000 ms — midway between coarse samples 0 (separation 10 km)
and 1 — the predictive search returns distance 10, exactly the coarse sample
minimum. No refinement toward the true minimum occurs: the produced distance
is not strictly closer to the true minimum (5) than the coarse-only estimate
(10). -/
theorem predict_no_refinement_counterexample :
    predictCollisions24Hours synProp [satP, satQ] 50 0 = [synEvent] ∧
    synEvent.distance = 10 ∧ synSep 0 = 10 ∧
    isMinOnHorizon synSep 5 ∧
    ¬ |synEvent.distance - 5| < |(10 : ℝ) - 5| := by
  refine ⟨synOut, rfl, synSep_zero,
    ⟨⟨450000, by norm_num, by norm_num, synSep_mid⟩, fun t _ _ => synSep_ge_five t⟩, ?_⟩
  rw [show synEvent.distance = (10 : ℝ) from rfl]
  exact lt_irrefl _

/-- C1 witness (for the amended theorem): the synthetic scenario's event is
in the output, and its distance is the rounded minimum over its pair's coarse
samples. -/
theorem predict_reports_coarse_minimum_witness :
    synEvent ∈ predictCollisions24Hours synProp [satP, satQ] 50 0 ∧
    (∃ p : SatelliteData × SatelliteData, p ∈ (allPairs [satP, satQ]).take 10000 ∧
      synEvent.sat1 = p.1 ∧ synEvent.sat2 = p.2 ∧
      ∃ m, m ∈ sampleDists synProp p.1 p.2 0 ∧
        (∀ d ∈ sampleDists synProp p.1 p.2 0, m ≤ d) ∧
        m < 50 ∧ synEvent.distance = roundTo2 m) := by
  have hm : synEvent ∈ predictCollisions24Hours synProp [satP, satQ] 50 0 := by
    rw [synOut]
    exact List.mem_singleton.mpr rfl
  exact ⟨hm, predict_reports_coarse_minimum synProp [satP, satQ] 50 0 synEvent hm⟩

/-! ### Stability of the sort and the tie-break order -/

/-- Distance order refined by a tie-break key: strictly smaller distance
first, equal distances ordered by the key. -/
def tieRefines (key : CollisionRisk → ℕ) (a b : CollisionRisk) : Prop :=
  a.distance < b.distance ∨ (a.distance = b.distance ∧ key a ≤ key b)

theorem orderedInsert_front (a : CollisionRisk) :
    ∀ l : List CollisionRisk, (∀ b ∈ l, distLE a b) →
      List.orderedInsert distLE a l = a :: l
  | [], _ => rfl
  | b :: l, hall => List.orderedInsert_of_le distLE l (hall b (List.mem_cons_self b l))

theorem insertionSort_preserves_tieRefines (key : CollisionRisk → ℕ) :
    ∀ l : List CollisionRisk, l.Pairwise (tieRefines key) →
      (List.insertionSort distLE l).Pairwise (tieRefines key)
  | [], _ => List.Pairwise.nil
  | a :: l, h => by
    rw [List.pairwise_cons] at h
    obtain ⟨ha, hl⟩ := h
    have ih := insertionSort_preserves_tieRefines key l hl
    have hall : ∀ b ∈ List.insertionSort distLE l, tieRefines key a b :=
      fun b hb => ha b ((List.perm_insertionSort distLE l).mem_iff.mp hb)
    rw [show List.insertionSort distLE (a :: l) =
      List.orderedInsert distLE a (List.insertionSort distLE l) from rfl]
    rw [orderedInsert_front a _ fun b hb => by
      rcases hall b hb with hlt | ⟨heq, _⟩
      · exact le_of_lt hlt
      · exact le_of_eq heq]
    exact List.pairwise_cons.mpr ⟨hall, ih⟩

/-- C9 (amended): the predictive search is a pure function of its inputs
(two runs on identical input produce identical output), and ties in its
output are broken by the deterministic input pair enumeration order — the
sort is stable — not by pair identity ordering: whenever the candidate
enumeration respects some tie-break key on equal distances, the sorted and
capped output still does. -/
theorem predict_tiebreak_enumeration (propagate : SatelliteData → ℤ → Option Vec3)
    (sats : List SatelliteData) (th : ℝ) (now : ℤ) (key : CollisionRisk → ℕ)
    (h : (predictCandidates propagate sats th now).Pairwise (tieRefines key)) :
    (predictCollisions24Hours propagate sats th now).Pairwise (tieRefines key) := by
  unfold predictCollisions24Hours sortByDistance
  exact List.Pairwise.sublist (List.take_sublist 50 _)
    (insertionSort_preserves_tieRefines key _ h)

/-! ### Four static objects with two equal-distance pairs -/

/-- Constant propagator: every object stays at its cached position. -/
def constProp (s : SatelliteData) (_ : ℤ) : Option Vec3 := s.position

/-- Static object "z1" at the origin. -/
noncomputable def satZ1 : SatelliteData := ⟨"z1", "Z1", some ⟨0, 0, 0⟩, true⟩

/-- Static object "z2", 10 km from "z1". -/
noncomputable def satZ2 : SatelliteData := ⟨"z2", "Z2", some ⟨0.01, 0, 0⟩, true⟩

/-- Static object "a1", far from the z pair. -/
noncomputable def satA1 : SatelliteData := ⟨"a1", "A1", some ⟨10, 0, 0⟩, true⟩

/-- Static object "a2", 10 km from "a1". -/
noncomputable def satA2 : SatelliteData := ⟨"a2", "A2", some ⟨10.01, 0, 0⟩, true⟩

/-- The four-object input, with the id-larger pair enumerated first. -/
noncomputable def quadSats : List SatelliteData := [satZ1, satZ2, satA1, satA2]

/-- The (z1, z2) event: distance 10 km. -/
noncomputable def eventZ : CollisionRisk :=
  ⟨"z1-z2-pred", satZ1, satZ2, 10, 0, .high, ⟨0, 0, 0⟩, ⟨0.01, 0, 0⟩, none, none⟩

/-- The (a1, a2) event: distance 10 km. -/
noncomputable def eventA : CollisionRisk :=
  ⟨"a1-a2-pred", satA1, satA2, 10, 0, .high, ⟨10, 0, 0⟩, ⟨10.01, 0, 0⟩, none, none⟩

/-- Under the constant propagator, a pair's coarse loop ends with its static
separation recorded at sample 0. -/
theorem predictPair_const_eval (s1 s2 : SatelliteData) (p1 p2 : Vec3) (th : ℝ)
    (now : ℤ) (h1 : s1.position = some p1) (h2 : s2.position = some p2)
    (hsr1 : s1.satrec = true) (hsr2 : s2.satrec = true) :
    predictPair constProp th now (s1, s2) =
      if sepKm p1 p2 < th then
        some ⟨s1.id ++ "-" ++ s2.id ++ "-pred", s1, s2, roundTo2 (sepKm p1 p2), now,
          getRiskLevel (sepKm p1 p2), p1, p2, none, none⟩
      else none := by
  unfold predictPair
  rw [if_pos (show ((s1, s2).1.satrec && (s1, s2).2.satrec) = true by
    rw [show (s1, s2).1.satrec = s1.satrec from rfl,
      show (s1, s2).2.satrec = s2.satrec from rfl, hsr1, hsr2]
    rfl)]
  have hst : (List.range 96).foldl (predictStep constProp now s1 s2)
      ⟨none, now, (s1, s2).1.position, (s1, s2).2.position⟩ =
      ⟨some (sepKm p1 p2), now, some p1, some p2⟩ := by
    apply foldl_range96_first_min constProp now s1 s2 p1 p2 h1 h2
    intro k _ _ q1 q2 hq1 hq2
    unfold constProp at hq1 hq2
    rw [h1] at hq1
    rw [h2] at hq2
    obtain rfl : p1 = q1 := Option.some.inj hq1
    obtain rfl : p2 = q2 := Option.some.inj hq2
    exact le_refl _
  rw [hst]
  rfl

theorem sepZ : sepKm ⟨0, 0, 0⟩ ⟨0.01, 0, 0⟩ = 10 := by
  rw [sepKm_x]
  exact abs_eval _ _ (by norm_num) (by norm_num)

theorem sepA : sepKm ⟨10, 0, 0⟩ ⟨10.01, 0, 0⟩ = 10 := by
  rw [sepKm_x]
  exact abs_eval _ _ (by norm_num) (by norm_num)

theorem quadCandidates : predictCandidates constProp quadSats 50 0 = [eventZ, eventA] := by
  have hZ : predictPair constProp 50 0 (satZ1, satZ2) = some eventZ := by
    rw [predictPair_const_eval satZ1 satZ2 ⟨0, 0, 0⟩ ⟨0.01, 0, 0⟩ 50 0 rfl rfl rfl rfl,
      sepZ, if_pos (by norm_num : (10 : ℝ) < 50), roundTo2_ten, getRiskLevel_ten]
    rfl
  have hA : predictPair constProp 50 0 (satA1, satA2) = some eventA := by
    rw [predictPair_const_eval satA1 satA2 ⟨10, 0, 0⟩ ⟨10.01, 0, 0⟩ 50 0 rfl rfl rfl rfl,
      sepA, if_pos (by norm_num : (10 : ℝ) < 50), roundTo2_ten, getRiskLevel_ten]
    rfl
  have hza1 : predictPair constProp 50 0 (satZ1, satA1) = none := by
    rw [predictPair_const_eval satZ1 satA1 ⟨0, 0, 0⟩ ⟨10, 0, 0⟩ 50 0 rfl rfl rfl rfl,
      sepKm_x, abs_eval _ _ (by norm_num : ((0 : ℝ) - 10) * 1000 = -10000) (by norm_num),
      if_neg (by norm_num : ¬ (10000 : ℝ) < 50)]
  have hza2 : predictPair constProp 50 0 (satZ1, satA2) = none := by
    rw [predictPair_const_eval satZ1 satA2 ⟨0, 0, 0⟩ ⟨10.01, 0, 0⟩ 50 0 rfl rfl rfl rfl,
      sepKm_x, abs_eval _ _ (by norm_num : ((0 : ℝ) - 10.01) * 1000 = -10010) (by norm_num),
      if_neg (by norm_num : ¬ (10010 : ℝ) < 50)]
  have hzb1 : predictPair constProp 50 0 (satZ2, satA1) = none := by
    rw [predictPair_const_eval satZ2 satA1 ⟨0.01, 0, 0⟩ ⟨10, 0, 0⟩ 50 0 rfl rfl rfl rfl,
      sepKm_x, abs_eval _ _ (by norm_num : ((0.01 : ℝ) - 10) * 1000 = -9990) (by norm_num),
      if_neg (by norm_num : ¬ (9990 : ℝ) < 50)]
  have hzb2 : predictPair constProp 50 0 (satZ2, satA2) = none := by
    rw [predictPair_const_eval satZ2 satA2 ⟨0.01, 0, 0⟩ ⟨10.01, 0, 0⟩ 50 0 rfl rfl rfl rfl,
      sepKm_x, abs_eval _ _ (by norm_num : ((0.01 : ℝ) - 10.01) * 1000 = -10000) (by norm_num),
      if_neg (by norm_num : ¬ (10000 : ℝ) < 50)]
  have hpairs : allPairs quadSats = [(satZ1, satZ2), (satZ1, satA1), (satZ1, satA2),
      (satZ2, satA1), (satZ2, satA2), (satA1, satA2)] := by
    simp [quadSats, allPairs]
  unfold predictCandidates
  rw [hpairs, List.take_of_length_le (by simp)]
  simp only [List.filterMap_cons, hZ, hA, hza1, hza2, hzb1, hzb2, List.filterMap_nil]

theorem quadOut : predictCollisions24Hours constProp quadSats 50 0 = [eventZ, eventA] := by
  unfold predictCollisions24Hours
  rw [quadCandidates]
  have hsort : sortByDistance [eventZ, eventA] = [eventZ, eventA] := by
    unfold sortByDistance
    rw [show List.insertionSort distLE [eventZ, eventA] =
      List.orderedInsert distLE eventZ [eventA] from rfl]
    exact List.orderedInsert_of_le distLE [] (le_refl (10 : ℝ))
  rw [hsort, List.take_of_length_le (by simp)]

/-- Lexicographic order on object ids by character codepoints. -/
def idLT (s t : String) : Prop :=
  List.Lex (fun a b => a < b) (s.data.map Char.toNat) (t.data.map Char.toNat)

instance : DecidableRel idLT := fun s t =>
  inferInstanceAs (Decidable (List.Lex (fun a b => a < b)
    (s.data.map Char.toNat) (t.data.map Char.toNat)))

/-- Lexicographic order on id pairs: "pair identity ordering". -/
def pairIdLE (p q : String × String) : Prop :=
  idLT p.1 q.1 ∨ (p.1 = q.1 ∧ (idLT p.2 q.2 ∨ p.2 = q.2))

instance (p q : String × String) : Decidable (pairIdLE p q) :=
  inferInstanceAs (Decidable (idLT p.1 q.1 ∨ (p.1 = q.1 ∧ (idLT p.2 q.2 ∨ p.2 = q.2))))

/-- C9 counterexample: on a four-object input whose two qualifying pairs both
have minimum distance 10 km, the output lists the `("z1","z2")` event before
the `("a1","a2")` event — the input enumeration order — even though pair
identity ordering puts `("a1","a2")` first: equal-distance events are not
ordered by pair identity ordering. -/
theorem predict_tiebreak_identity_counterexample :
    (predictCollisions24Hours constProp quadSats 50 0).map
        (fun e => (e.sat1.id, e.sat2.id)) = [("z1", "z2"), ("a1", "a2")] ∧
    eventZ.distance = eventA.distance ∧
    ¬ List.Chain' pairIdLE ((predictCollisions24Hours constProp quadSats 50 0).map
        fun e => (e.sat1.id, e.sat2.id)) := by
  refine ⟨by rw [quadOut]; rfl, rfl, ?_⟩
  rw [quadOut, show ([eventZ, eventA].map fun e => (e.sat1.id, e.sat2.id)) =
    [("z1", "z2"), ("a1", "a2")] from rfl]
  intro hchain
  rcases (List.chain'_cons.mp hchain).1 with hlt | ⟨heq, _⟩
  · exact absurd hlt (by decide)
  · exact absurd heq (by decide)

/-- C9 witness (for the amended theorem): on the four-object input, the
candidate enumeration respects the key putting the z pair first, and so does
the output. -/
theorem predict_tiebreak_enumeration_witness :
    (predictCandidates constProp quadSats 50 0).Pairwise
      (tieRefines fun e => if e.sat1.id = "z1" then 0 else 1) ∧
    (predictCollisions24Hours constProp quadSats 50 0).Pairwise
      (tieRefines fun e => if e.sat1.id = "z1" then 0 else 1) := by
  have hp : (predictCandidates constProp quadSats 50 0).Pairwise
      (tieRefines fun e => if e.sat1.id = "z1" then 0 else 1) := by
    rw [quadCandidates]
    refine List.pairwise_cons.mpr ⟨?_, List.pairwise_singleton _ _⟩
    intro b hb
    obtain rfl : b = eventA := List.mem_singleton.mp hb
    exact Or.inr ⟨rfl, by decide⟩
  exact ⟨hp, predict_tiebreak_enumeration constProp quadSats 50 0 _ hp⟩

end Satellite12
